import Mathlib

/-!
Shallow embedding of the monitoramentoverdescola internet-uplink monitor:
WAN signal reconciler (src/unifi.mjs), hysteresis state machine and history
buffer (src/monitor.mjs), audit hook (src/server.mjs), controller client
retry (unifi-monitor.mjs), and the observer client's merge/backoff logic
(dashboard page component).
-/

namespace VerdeScola

/-- Does the character list `s` start with `pat`? -/
def startsWithChars : List Char → List Char → Bool
  | [], _ => true
  | _ :: _, [] => false
  | p :: ps, c :: cs => p == c && startsWithChars ps cs

/-- Does the character list `s` contain `pat` as a contiguous run? -/
def infixChars (pat : List Char) : List Char → Bool
  | [] => pat.isEmpty
  | c :: rest => startsWithChars pat (c :: rest) || infixChars pat rest

/-- JS `s.includes(pat)`: true when `pat` occurs as a substring of `s`. -/
def strContains (s pat : String) : Bool := infixChars pat.data s.data

/-- JS `toLowerCase`, character by character. -/
def strLower (s : String) : String := ⟨s.data.map Char.toLower⟩

/-- JS `toUpperCase`, character by character. -/
def strUpper (s : String) : String := ⟨s.data.map Char.toUpper⟩

/-! ## WAN signal reconciler (src/unifi.mjs) -/

/-- One element of a gateway's `uplink` array: fields read by `readWanUp`. -/
structure UplinkEntry where
  name : Option String
  up : Option Bool
  linkUp : Option Bool
  connected : Option Bool
deriving DecidableEq, Repr

/-- A gateway's `uplink` field is duck-typed: either an object (whose `up`
may or may not be a boolean) or an array of uplink entries. -/
inductive UplinkVal
  | obj (up : Option Bool)
  | arr (items : List UplinkEntry)
deriving DecidableEq, Repr

/-- One physical port from `interfaces.ports` or kin: all fields the port
scan of `readWanUp` reads. `Option` models an absent or non-boolean field. -/
structure Port where
  name : Option String
  portName : Option String
  displayName : Option String
  role : Option String
  purpose : Option String
  usage : Option String
  isWan : Option Bool
  up : Option Bool
  linkUp : Option Bool
  hasLink : Option Bool
  connected : Option Bool
  link : Option Bool
  status : Option String
  state : Option String
deriving DecidableEq, Repr

/-- Nested `gw.wan` object. -/
structure WanObj where
  up : Option Bool
deriving DecidableEq, Repr

/-- Nested `gw.internet` object. -/
structure InternetObj where
  up : Option Bool
  connected : Option Bool
deriving DecidableEq, Repr

/-- Nested `gw.connectivity` object. -/
structure ConnectivityObj where
  internet : Option Bool
deriving DecidableEq, Repr

/-- Nested `gw.status` object. -/
structure StatusObj where
  wanUp : Option Bool
deriving DecidableEq, Repr

/-- The `interfaces` object shape: `ports` or `ethernetPorts` arrays. -/
structure InterfacesObj where
  ports : Option (List Port)
  ethernetPorts : Option (List Port)
deriving DecidableEq, Repr

/-- `gw.interfaces` is duck-typed: an object with port arrays, or
itself an array of ports. -/
inductive InterfacesVal
  | obj (o : InterfacesObj)
  | arr (ports : List Port)
deriving DecidableEq, Repr

/-- A device from the controller inventory, with every field that
`pickGateway` and `readWanUp` inspect. -/
structure Gateway where
  id : Option String
  type : Option String
  model : Option String
  name : Option String
  productLine : Option String
  uplink : Option UplinkVal
  wan : Option WanObj
  internet : Option InternetObj
  connectivity : Option ConnectivityObj
  status : Option StatusObj
  wanUp : Option Bool
  interfaces : Option InterfacesVal
deriving DecidableEq, Repr

/-- `pickGateway(devices)` from src/unifi.mjs: device with `type ===
"gateway"`, else first whose model contains "USG" (uppercased), else first
whose name contains "USG", else first whose productLine contains
"gateway" (lowercased), else none. -/
def pickGateway (devices : List Gateway) : Option Gateway :=
  (devices.find? (fun d => d.type == some "gateway")) <|>
  (devices.find? (fun d => strContains (strUpper (d.model.getD "")) "USG")) <|>
  (devices.find? (fun d => strContains (strUpper (d.name.getD "")) "USG")) <|>
  (devices.find? (fun d => strContains (strLower (d.productLine.getD "")) "gateway"))

/-- The port loop of `readWanUp` step 3: for each candidate port, first
boolean among up/linkUp/hasLink/connected/link wins; else a non-empty
status/state string classified into up/down vocabularies; else next port. -/
def scanPorts : List Port → Option Bool
  | [] => none
  | p :: rest =>
    match [p.up, p.linkUp, p.hasLink, p.connected, p.link].findSome? id with
    | some b => some b
    | none =>
      let st := strLower ((p.status <|> p.state).getD "")
      if st ≠ "" then
        if ["up", "online", "connected", "ok"].contains st then some true
        else if ["down", "offline", "disconnected", "no_link"].contains st then some false
        else scanPorts rest
      else scanPorts rest

/-- JS predicate `isWanPort` inside `readWanUp`. -/
def isWanPort (p : Port) : Bool :=
  let nm := strLower ((p.name <|> p.portName <|> p.displayName).getD "")
  let rl := strLower ((p.role <|> p.purpose <|> p.usage).getD "")
  p.isWan == some true || rl == "wan" || strContains nm "wan"

/-- `readWanUp(gw)` from src/unifi.mjs. Step 1: direct boolean fields in
a fixed order. Step 2: `uplink` as an array (entry whose name contains
"wan", else the first). Step 3: scan `interfaces` ports (WAN-ish ports
first, else all). Returns `none` for unknown (JS `null`). -/
def readWanUp (gw : Option Gateway) : Option Bool :=
  match gw with
  | none => none
  | some g =>
    let direct : List (Option Bool) :=
      [ (match g.uplink with | some (.obj u) => u | _ => none),
        g.wan.bind (fun w => w.up),
        g.internet.bind (fun i => i.up),
        g.internet.bind (fun i => i.connected),
        g.connectivity.bind (fun c => c.internet),
        g.status.bind (fun s => s.wanUp),
        g.wanUp ]
    match direct.findSome? id with
    | some b => some b
    | none =>
      let arrRes : Option Bool :=
        match g.uplink with
        | some (.arr items) =>
          let wanE := (items.find? (fun x => strContains (strLower (x.name.getD "")) "wan")) <|> items.head?
          match wanE with
          | some w => [w.up, w.linkUp, w.connected].findSome? id
          | none => none
        | _ => none
      match arrRes with
      | some b => some b
      | none =>
        let ports : List Port :=
          match g.interfaces with
          | some (.obj o) => (o.ports <|> o.ethernetPorts).getD []
          | some (.arr ps) => ps
          | none => []
        if ports.isEmpty then none
        else
          let wanPorts := ports.filter isWanPort
          let candidates := if wanPorts.isEmpty then ports else wanPorts
          scanPorts candidates

/-- The `port_info` object of a WAN network group. -/
structure PortInfo where
  disabled : Option Bool
deriving DecidableEq, Repr

/-- One WAN network group entry, with the fields read by
`pickPrimaryWanGroup` and `readWanStatusFromGroups`. `priority` and
`uptime` are `none` when absent or non-numeric (JS `NaN`). -/
structure WanGroup where
  id : Option String
  priority : Option Int
  port_info : Option PortInfo
  uptime : Option Int
deriving DecidableEq, Repr

/-- `pickPrimaryWanGroup(groups)`: entry whose id uppercases to "WAN",
else the first entry of lowest numeric priority (absent priority counts
as 9999; JS stable sort then index 0), else none for an empty list. -/
def pickPrimaryWanGroup (groups : List WanGroup) : Option WanGroup :=
  match groups.find? (fun g => strUpper (g.id.getD "") == "WAN") with
  | some g => some g
  | none =>
    match groups with
    | [] => none
    | g0 :: rest =>
      some (rest.foldl
        (fun best g => if (g.priority.getD 9999) < (best.priority.getD 9999) then g else best) g0)

/-- Result of `readWanStatusFromGroups`: `{ up, primary }`. -/
structure WanStatus where
  up : Option Bool
  primary : Option WanGroup
deriving DecidableEq, Repr

/-- `readWanStatusFromGroups(groups)` from src/unifi.mjs: disabled port
means down; otherwise a finite `uptime` means up iff it is positive;
otherwise unknown. -/
def readWanStatusFromGroups (groups : List WanGroup) : WanStatus :=
  match pickPrimaryWanGroup groups with
  | none => ⟨none, none⟩
  | some primary =>
    let disabled := (primary.port_info.bind (fun pi => pi.disabled)).getD false
    let up : Option Bool :=
      if disabled then some false
      else match primary.uptime with
        | some u => some (decide (u > 0))
        | none => none
    ⟨up, some primary⟩

/-- The wanUp computation of `Monitor.tick` (src/monitor.mjs lines 76-96):
start from `readWanUp(pickGateway(devices))`, then, when the WAN-groups
listing resolved to an array, overwrite with its verdict whenever that
verdict is not null. `groupsRes = none` models a failed or non-array
groups response. -/
def tickWanUp (devices : List Gateway) (groupsRes : Option (List WanGroup)) : Option Bool :=
  let wanUp := readWanUp (pickGateway devices)
  match groupsRes with
  | some groups =>
    match (readWanStatusFromGroups groups).up with
    | some b => some b
    | none => wanUp
  | none => wanUp

/-! ## Hysteresis state machine (src/monitor.mjs) -/

/-- The four health states of the monitor. -/
inductive HState
  | OK
  | DEGRADED
  | DOWN
  | UNKNOWN
deriving DecidableEq, Repr

/-- Hysteresis thresholds (`degradedAfterFails`, `downAfterFails`,
`okAfterSucc` in the Monitor constructor; defaults 2, 4, 2). -/
structure Cfg where
  degradedAfterFails : Nat
  downAfterFails : Nat
  okAfterSucc : Nat
deriving DecidableEq, Repr

/-- The Monitor's mutable per-cycle state: current health state and the
consecutive-fail / consecutive-success counters. -/
structure MState where
  state : HState
  fail : Nat
  succ : Nat
deriving DecidableEq, Repr

/-- The `reason` tag recorded on each history entry. -/
inductive Reason
  | WAN_LINK_DOWN
  | PROBE_DOWN
  | PROBE_DEGRADED
  | PROBE_FAIL_SOFT
  | PROBE_OK
  | PROBE_OK_SOFT
deriving DecidableEq, Repr

/-- The decision core of `Monitor.tick` (src/monitor.mjs lines 111-167)
on the reconciled `wanUp` and the probe outcome. Returns the new machine
state, the entry's reason tag, and whether `setState` announced a
transition (`changed`; soft branches never announce). -/
def tickStep (cfg : Cfg) (s : MState) (wanUp : Option Bool) (probeOk : Bool) :
    MState × Reason × Bool :=
  if wanUp = some false then
    (⟨.DOWN, 0, 0⟩, .WAN_LINK_DOWN, decide (s.state ≠ .DOWN))
  else if !probeOk then
    let fail := s.fail + 1
    if cfg.downAfterFails ≤ fail then
      (⟨.DOWN, fail, 0⟩, .PROBE_DOWN, decide (s.state ≠ .DOWN))
    else if cfg.degradedAfterFails ≤ fail then
      (⟨.DEGRADED, fail, 0⟩, .PROBE_DEGRADED, decide (s.state ≠ .DEGRADED))
    else
      (⟨s.state, fail, 0⟩, .PROBE_FAIL_SOFT, false)
  else
    let succ := s.succ + 1
    if s.state = .UNKNOWN ∨ cfg.okAfterSucc ≤ succ then
      (⟨.OK, 0, succ⟩, .PROBE_OK, decide (s.state ≠ .OK))
    else
      (⟨s.state, 0, succ⟩, .PROBE_OK_SOFT, false)

/-- Run the state machine over a list of per-cycle `(wanUp, probeOk)`
inputs, collecting the machine state after each cycle. -/
def runStates (cfg : Cfg) (s : MState) : List (Option Bool × Bool) → List MState
  | [] => []
  | i :: rest =>
    let s' := (tickStep cfg s i.1 i.2).1
    s' :: runStates cfg s' rest

/-- The per-cycle health states only. -/
def stateSeq (cfg : Cfg) (s : MState) (inputs : List (Option Bool × Bool)) : List HState :=
  (runStates cfg s inputs).map (fun m => m.state)

/-- The observable fields of the history entry one full tick produces
that the error-handling claims are about. -/
structure TickEntry where
  state : HState
  reason : Reason
  wanUp : Option Bool
  unifiError : Option String
deriving DecidableEq, Repr

/-- One full `Monitor.tick` cycle (src/monitor.mjs lines 63-167):
`devicesRes` is the outcome of the controller device query (`.error e`
models the caught exception, which leaves `devices = []` and sets
`unifiError`), `groupsRes` the best-effort WAN-groups listing, `probeOk`
the probe outcome. The cycle always runs the reconciler and the
hysteresis step and always produces an entry carrying `unifiError`. -/
def tickFull (cfg : Cfg) (s : MState) (devicesRes : Except String (List Gateway))
    (groupsRes : Option (List WanGroup)) (probeOk : Bool) : MState × TickEntry :=
  let devices := match devicesRes with | .ok ds => ds | .error _ => []
  let unifiError := match devicesRes with | .ok _ => none | .error e => some e
  let wanUp := tickWanUp devices groupsRes
  let r := tickStep cfg s wanUp probeOk
  (r.1, ⟨r.1.state, r.2.1, wanUp, unifiError⟩)

/-! ## Bounded history buffer (src/monitor.mjs `pushHistory`) -/

/-- `Monitor.pushHistory(entry)`: unshift the entry to the front, then
truncate to `maxHistory` entries (`history.length = maxHistory`). -/
def pushHistory {α : Type} (maxHistory : Nat) (history : List α) (entry : α) : List α :=
  (entry :: history).take maxHistory

/-! ## Audit hook (src/server.mjs `monitor.onChange`) -/

/-- The two audit record kinds the server ever appends. -/
inductive AuditKind
  | INTERNET_DOWN
  | INTERNET_RESTORED
deriving DecidableEq, Repr

/-- The audit records `monitor.onChange` appends for one transition
(src/server.mjs lines 47-82): one `INTERNET_DOWN` when the new state is
DOWN, one `INTERNET_RESTORED` when going from DOWN to OK, nothing else. -/
def auditKinds (prev next : HState) : List AuditKind :=
  (if next = .DOWN then [.INTERNET_DOWN] else []) ++
  (if prev = .DOWN ∧ next = .OK then [.INTERNET_RESTORED] else [])

/-- `setState` only invokes `onChange` when `prev ≠ next`; the audit
records produced by one `setState` call. -/
def setStateAudit (prev next : HState) : List AuditKind :=
  if prev ≠ next then auditKinds prev next else []

/-! ## Controller client retry (unifi-monitor.mjs `UniFiClient.request`) -/

/-- Outcome of the modelled `request` call. -/
inductive RequestResult
  | success
  | transportError (status : Nat)
  | stillRetrying
deriving DecidableEq, Repr

/-- `UniFiClient.request` (unifi-monitor.mjs lines 244-265), abstracted
over the HTTP status the server returns to each successive attempt of the
call (re-authentication itself is assumed to succeed, as in the session
expiry scenario). Status 401/403 clears the session, re-logs-in and
recursively retries; 2xx returns the body; other statuses surface a
transport error. An exhausted trace (`[]`) means the code is still
recursing and about to make yet another attempt. -/
def requestModel : List Nat → RequestResult
  | [] => .stillRetrying
  | st :: rest =>
    if st = 401 ∨ st = 403 then requestModel rest
    else if 200 ≤ st ∧ st ≤ 299 then .success
    else .transportError st

/-- Number of attempts of the original call the code performs on the
given response trace. -/
def attemptsUsed : List Nat → Nat
  | [] => 0
  | st :: rest => if st = 401 ∨ st = 403 then 1 + attemptsUsed rest else 1

/-! ## Observer client (dashboard component): merge, dedup, backoff -/

/-- The probe subobject of a received history entry. -/
structure WsProbe where
  ok : Bool
  ms : Option Int
deriving DecidableEq, Repr

/-- A history entry as the observer stores it (fields relevant to the
merge: the dedup key reads `ts`, `state` and `probe.ms`). -/
structure WsEntry where
  ts : String
  state : HState
  probe : Option WsProbe
deriving DecidableEq, Repr

/-- JS state strings used in the dedup key. -/
def stateName : HState → String
  | .OK => "OK"
  | .DEGRADED => "DEGRADED"
  | .DOWN => "DOWN"
  | .UNKNOWN => "UNKNOWN"

/-- The dedup key of the tick branch: the template string composed of
timestamp, state and probe latency, with sentinel "x" when the latency is
absent. -/
def entryKey (e : WsEntry) : String :=
  e.ts ++ "|" ++ stateName e.state ++ "|" ++
    (match e.probe with
      | some p => match p.ms with | some n => toString n | none => "x"
      | none => "x")

/-- The observer's local view: displayed state, label, local history. -/
structure StatusPayload where
  state : HState
  label : String
  history : List WsEntry
deriving DecidableEq, Repr

/-- A `tick` push message: the new entry plus optional state and label. -/
structure TickMsg where
  entry : WsEntry
  state : Option HState
  label : Option String
deriving DecidableEq, Repr

/-- The tick branch of `ws.onmessage`: if an entry with the same dedup
key exists anywhere in local history the entry is dropped, otherwise it
is prepended and the history truncated to 250; displayed state and label
come from the message (falling back to the entry's state and the previous
label). `prev = none` models the initial null view. -/
def applyTick (msg : TickMsg) (prev : Option StatusPayload) : StatusPayload :=
  { state := msg.state.getD msg.entry.state
    label := msg.label.getD (match prev with | some p => p.label | none => "")
    history :=
      let prevHist := match prev with | some p => p.history | none => []
      if prevHist.any (fun h => entryKey h == entryKey msg.entry) then prevHist
      else (msg.entry :: prevHist).take 250 }

/-- `scheduleReconnect`: the retry counter after one more failure
(`Math.min(8, retry + 1)`). -/
def nextRetry (retry : Nat) : Nat := min 8 (retry + 1)

/-- `scheduleReconnect`: the delay scheduled for a given (already
incremented) attempt counter (`Math.min(15000, 500 * 2 ** attempt)`). -/
def reconnectDelay (attempt : Nat) : Nat := min 15000 (500 * 2 ^ attempt)

/-- Retry counter after `n` consecutive failures starting from `r0`. -/
def retryIter (r0 : Nat) : Nat → Nat
  | 0 => r0
  | n + 1 => nextRetry (retryIter r0 n)

/-- Initial value of the retry counter (`wsRetryRef = useRef(0)`). -/
def wsRetryInit : Nat := 0

/-- Value the retry counter is reset to on a successful connection
(`ws.onopen` sets `wsRetryRef.current = 0`). -/
def wsRetryAfterOpen : Nat := 0


/-! ## Helper lemmas -/

/-- The WAN-link-down branch of the tick decision: immediate DOWN with
both counters cleared, whatever the probe said. -/
theorem tickStep_wan_false (cfg : Cfg) (s : MState) (probeOk : Bool) :
    (tickStep cfg s (some false) probeOk).1 = ⟨.DOWN, 0, 0⟩ := rfl

/-- Truncating before an append is absorbed by truncating the append. -/
theorem take_append_take {α : Type} (n : Nat) (xs ys : List α) :
    (xs ++ ys.take n).take n = (xs ++ ys).take n := by
  rw [List.take_append_eq_append_take, List.take_append_eq_append_take, List.take_take,
    inf_eq_left.mpr (Nat.sub_le n xs.length)]

/-- Closed form of repeated `pushHistory`: the buffer holds the newest
`cap` insertions, newest first, on top of an already-bounded start. -/
theorem foldl_pushHistory_take {α : Type} (cap : Nat) (l : List α) :
    ∀ h0 : List α, h0.length ≤ cap →
      List.foldl (pushHistory cap) h0 l = (l.reverse ++ h0).take cap := by
  induction l with
  | nil =>
    intro h0 hlen
    simp [List.take_of_length_le hlen]
  | cons a l ih =>
    intro h0 hlen
    have hstep : List.foldl (pushHistory cap) h0 (a :: l) =
        List.foldl (pushHistory cap) ((a :: h0).take cap) l := rfl
    rw [hstep, ih _ (by simp)]
    rw [take_append_take]
    simp [List.append_assoc]

/-- Projection-wise equality of observer views. -/
theorem statusPayload_ext (a b : StatusPayload) (h1 : a.state = b.state)
    (h2 : a.label = b.label) (h3 : a.history = b.history) : a = b := by
  cases a; cases b; simp_all

/-- Core of the dedup argument: after the tick branch rebuilds the local
history, an entry carrying the message's dedup key is present in it. -/
theorem any_key_after_merge (hist : List WsEntry) (e : WsEntry) :
    (if hist.any (fun h => entryKey h == entryKey e) then hist
     else ((e :: hist).take 250)).any (fun h => entryKey h == entryKey e) = true := by
  by_cases hA : hist.any (fun h => entryKey h == entryKey e) = true
  · rw [if_pos hA]
    exact hA
  · rw [if_neg hA]
    rw [show (250 : Nat) = 249 + 1 from rfl, List.take_succ_cons, List.any_cons]
    simp

/-- After any tick application, an entry with the message's dedup key is
present in the local history. -/
theorem applyTick_any_key (msg : TickMsg) (prev : Option StatusPayload) :
    (applyTick msg prev).history.any (fun h => entryKey h == entryKey msg.entry) = true := by
  cases prev with
  | none => exact any_key_after_merge [] msg.entry
  | some p => exact any_key_after_merge p.history msg.entry

/-! ## Claim C1 -/

/-- A gateway whose device payload exposes the explicit `uplink.up = false`. -/
def c1Gateway : Gateway :=
  { id := some "g1", type := some "gateway", model := some "USG-Pro-4",
    name := some "USG-Pro-4", productLine := none, uplink := some (.obj (some false)),
    wan := none, internet := none, connectivity := none, status := none,
    wanUp := none, interfaces := none }

/-- A WAN-topology listing whose primary group resolves to up. -/
def c1Groups : List WanGroup :=
  [{ id := some "WAN", priority := none, port_info := none, uptime := some 100 }]

/-- C1 counterexample: with an explicit `uplink.up = false` on the selected
gateway and a topology listing resolving to up, `Monitor.tick` reconciles
`wanUp = true` — the topology listing, assigned later, overwrites the
device field, so the claimed verdict `false` is wrong. -/
theorem wan_explicit_false_topology_true_counterexample :
    readWanUp (pickGateway [c1Gateway]) = some false ∧
    (readWanStatusFromGroups c1Groups).up = some true ∧
    tickWanUp [c1Gateway] (some c1Groups) = some true ∧
    tickWanUp [c1Gateway] (some c1Groups) ≠ some false :=
  ⟨rfl, rfl, rfl, by decide⟩

/-- C1 (amended): whenever the selected gateway exposes an explicit boolean
link-up field equal to false and the WAN-topology listing resolves to
up = true, the reconciled verdict is true: the topology listing, applied
after the device field in `Monitor.tick`, wins whenever it resolves. -/
theorem wan_topology_overrides_device_field (devices : List Gateway)
    (groups : List WanGroup)
    (h1 : readWanUp (pickGateway devices) = some false)
    (h2 : (readWanStatusFromGroups groups).up = some true) :
    tickWanUp devices (some groups) = some true := by
  show (match (readWanStatusFromGroups groups).up with
        | some b => some b
        | none => readWanUp (pickGateway devices)) = some true
  rw [h2]

/-- C1 witness: the amended theorem applied at the concrete device and
topology payloads of the counterexample. -/
theorem wan_topology_overrides_device_field_witness :
    tickWanUp [c1Gateway] (some c1Groups) = some true :=
  wan_topology_overrides_device_field [c1Gateway] c1Groups rfl rfl

/-! ## Claim C2 -/

/-- C2 counterexample: with thresholds 2/4 and counters starting at zero,
three consecutive probe failures from state OK with wanUp true yield
OK, DEGRADED, DEGRADED — not DEGRADED, DEGRADED, DEGRADED: the first
failure is soft (fail counter 1 is below the degraded threshold 2). -/
theorem three_fails_not_all_degraded :
    stateSeq ⟨2, 4, 2⟩ ⟨.OK, 0, 0⟩ (List.replicate 3 (some true, false)) =
      [.OK, .DEGRADED, .DEGRADED] ∧
    stateSeq ⟨2, 4, 2⟩ ⟨.OK, 0, 0⟩ (List.replicate 3 (some true, false)) ≠
      [.DEGRADED, .DEGRADED, .DEGRADED] := by
  decide

/-- C2 (amended): with degraded-threshold 2 and down-threshold 4, starting
from any state with both counters zero, four consecutive probe-failure
cycles with wanUp = true produce the per-cycle state sequence: unchanged
starting state (soft first failure), DEGRADED, DEGRADED, DOWN. -/
theorem fail_sequence_soft_degraded_degraded_down (s0 : HState) :
    stateSeq ⟨2, 4, 2⟩ ⟨s0, 0, 0⟩ (List.replicate 4 (some true, false)) =
      [s0, .DEGRADED, .DEGRADED, .DOWN] := by
  cases s0 <;> decide

/-! ## Claim C3 -/

/-- C3: over any input sequence and any starting state and counters, every
cycle whose input carries `wanUp = false` ends in state DOWN with both
counters reset to zero, regardless of the probe result of that cycle. -/
theorem wan_false_always_down (cfg : Cfg) (s : MState)
    (inputs : List (Option Bool × Bool)) (i : Nat) (inp : Option Bool × Bool)
    (h1 : inputs[i]? = some inp) (h2 : inp.1 = some false) :
    (runStates cfg s inputs)[i]? = some ⟨.DOWN, 0, 0⟩ := by
  induction inputs generalizing s i with
  | nil => simp at h1
  | cons a rest ih =>
    cases i with
    | zero =>
      rw [List.getElem?_cons_zero, Option.some.injEq] at h1
      subst h1
      simp only [runStates, List.getElem?_cons_zero, Option.some.injEq]
      rw [h2, tickStep_wan_false]
    | succ n =>
      rw [List.getElem?_cons_succ] at h1
      simp only [runStates, List.getElem?_cons_succ]
      exact ih _ _ h1

/-- C3 witness: the second cycle of a concrete run receives wanUp = false
with nonzero prior counters and ends at DOWN with counters cleared. -/
theorem wan_false_always_down_witness :
    (runStates ⟨2, 4, 2⟩ ⟨.OK, 5, 7⟩ [(some true, true), (some false, false)])[1]? =
      some ⟨.DOWN, 0, 0⟩ :=
  wan_false_always_down ⟨2, 4, 2⟩ ⟨.OK, 5, 7⟩ _ 1 (some false, false) rfl rfl

/-! ## Claim C4 -/

/-- C4 (code bug): against a server that answers every authenticated
request with an authorization failure (while re-login succeeds), the
`request` recursion consumes every one of the `n` responses — it performs
`n` attempts of the original call without ever surfacing an error, for
every `n`. The claimed bound of two attempts is violated at `n = 3`. -/
theorem request_auth_failure_unbounded_retry (n : Nat) :
    requestModel (List.replicate n 401) = .stillRetrying ∧
    attemptsUsed (List.replicate n 401) = n := by
  induction n with
  | zero => exact ⟨rfl, rfl⟩
  | succ n ih =>
    rw [List.replicate_succ]
    constructor
    · simp only [requestModel]
      simpa using ih.1
    · simp only [attemptsUsed]
      simp [ih.2]
      omega

/-! ## Claim C5 -/

/-- C5 counterexample: a cycle whose controller device query fails (probe
succeeding, topology unavailable) from state OK attaches the error string
and ends with state OK — the state is not forced to UNKNOWN. -/
theorem controller_failure_not_forced_unknown :
    (tickFull ⟨2, 4, 2⟩ ⟨.OK, 0, 0⟩ (.error "HTTP 500 em /devices") none true).1.state = .OK ∧
    (tickFull ⟨2, 4, 2⟩ ⟨.OK, 0, 0⟩ (.error "HTTP 500 em /devices") none true).2.unifiError =
      some "HTTP 500 em /devices" ∧
    (tickFull ⟨2, 4, 2⟩ ⟨.OK, 0, 0⟩ (.error "HTTP 500 em /devices") none true).1.state ≠
      .UNKNOWN :=
  ⟨rfl, rfl, by decide⟩

/-- C5 (amended): a failed controller device query never aborts the cycle:
the entry is still produced with the error string attached, the probe
outcome still drives the hysteresis step exactly as with an empty device
inventory, and when the topology listing is also unavailable the
reconciled wanUp is unknown. The state is not forced to UNKNOWN; it keeps
evolving by the ordinary transition rule. -/
theorem controller_failure_cycle_continues (cfg : Cfg) (s : MState) (e : String)
    (groupsRes : Option (List WanGroup)) (probeOk : Bool) :
    (tickFull cfg s (.error e) groupsRes probeOk).2.unifiError = some e ∧
    (tickFull cfg s (.error e) groupsRes probeOk).1 =
      (tickStep cfg s (tickWanUp [] groupsRes) probeOk).1 ∧
    (tickFull cfg s (.error e) groupsRes probeOk).2.reason =
      (tickStep cfg s (tickWanUp [] groupsRes) probeOk).2.1 ∧
    tickWanUp [] none = none :=
  ⟨rfl, rfl, rfl, rfl⟩

/-! ## Claim C6 -/

/-- C6: the history buffer never exceeds its capacity; starting empty it
always holds the newest insertions newest-first, and after `cap + 1`
insertions the oldest entry has been evicted while the order of the
remaining entries is preserved. -/
theorem history_bounded_and_evicts_oldest {α : Type} (cap : Nat) (l h0 : List α)
    (hlen : h0.length ≤ cap) :
    (List.foldl (pushHistory cap) h0 l).length ≤ cap ∧
    List.foldl (pushHistory cap) [] l = l.reverse.take cap ∧
    (∀ e rest, l = e :: rest → rest.length = cap → e ∉ rest →
      List.foldl (pushHistory cap) [] l = rest.reverse ∧
      e ∉ List.foldl (pushHistory cap) [] l) := by
  have hbase : List.foldl (pushHistory cap) [] l = l.reverse.take cap := by
    rw [foldl_pushHistory_take cap l [] (by simp)]
    simp
  refine ⟨?_, hbase, ?_⟩
  · rw [foldl_pushHistory_take cap l h0 hlen]
    simp only [List.length_take]
    omega
  · intro e rest hl hlen2 hnotin
    subst hl
    have hres : List.foldl (pushHistory cap) [] (e :: rest) = rest.reverse := by
      rw [hbase, List.reverse_cons, List.take_append_eq_append_take,
        List.take_of_length_le (by simp [hlen2])]
      simp [hlen2]
    refine ⟨hres, ?_⟩
    rw [hres]
    simpa using hnotin

/-- C6 witness: capacity 2, three insertions — the buffer stays within
bound and the first insertion is gone. -/
theorem history_bounded_and_evicts_oldest_witness :
    (List.foldl (pushHistory 2) ([] : List Nat) [1, 2, 3]).length ≤ 2 ∧
    (1 : Nat) ∉ List.foldl (pushHistory 2) ([] : List Nat) [1, 2, 3] := by
  have h := history_bounded_and_evicts_oldest 2 [1, 2, 3] ([] : List Nat) (by decide)
  exact ⟨h.1, (h.2.2 1 [2, 3] rfl (by decide) (by decide)).2⟩

/-! ## Claim C7 -/

/-- C7: on a state transition, an audit record is appended iff the
transition enters DOWN (kind INTERNET_DOWN) or goes from DOWN to OK
(kind INTERNET_RESTORED); transitions whose endpoints lie in
DEGRADED/UNKNOWN never produce one. -/
theorem audit_iff_down_or_restored (prev next : HState) (h : prev ≠ next) :
    (setStateAudit prev next ≠ [] ↔ (next = .DOWN ∨ (prev = .DOWN ∧ next = .OK))) ∧
    (next = .DOWN → setStateAudit prev next = [.INTERNET_DOWN]) ∧
    (prev = .DOWN ∧ next = .OK → setStateAudit prev next = [.INTERNET_RESTORED]) ∧
    ((prev = .DEGRADED ∨ prev = .UNKNOWN) → (next = .DEGRADED ∨ next = .UNKNOWN) →
      setStateAudit prev next = []) := by
  revert h
  cases prev <;> cases next <;> decide

/-- C7 witness: the OK to DOWN transition appends exactly the
INTERNET_DOWN record. -/
theorem audit_iff_down_or_restored_witness :
    setStateAudit .OK .DOWN = [.INTERNET_DOWN] :=
  (audit_iff_down_or_restored .OK .DOWN (by decide)).2.1 rfl

/-! ## Claim C8 -/

/-- C8: the observer's tick merge is idempotent — applying the same tick
message a second time right after the first leaves the local view exactly
as after the first application: the second entry's dedup key collides and
the entry is dropped. -/
theorem applyTick_idempotent (msg : TickMsg) (prev : Option StatusPayload) :
    applyTick msg (some (applyTick msg prev)) = applyTick msg prev := by
  apply statusPayload_ext
  · rfl
  · show msg.label.getD (applyTick msg prev).label = (applyTick msg prev).label
    cases hL : msg.label with
    | none => rfl
    | some l =>
      show l = msg.label.getD (match prev with | some p => p.label | none => "")
      rw [hL]
      rfl
  · show (if (applyTick msg prev).history.any (fun h => entryKey h == entryKey msg.entry)
        then (applyTick msg prev).history
        else ((msg.entry :: (applyTick msg prev).history).take 250)) =
      (applyTick msg prev).history
    rw [if_pos (applyTick_any_key msg prev)]

/-! ## Claim C9 -/

/-- C9: across consecutive reconnection failures the scheduled delay is
monotonically non-decreasing and never exceeds the 15000 ms cap, from any
starting counter; a successful connection resets the counter to the
initial zero, making the next failure's delay the schedule's first (base)
delay of 1000 ms again. -/
theorem backoff_monotone_capped_resets :
    (∀ r0 n, reconnectDelay (retryIter r0 (n + 1)) ≤ reconnectDelay (retryIter r0 (n + 2))) ∧
    (∀ a, reconnectDelay a ≤ 15000) ∧
    reconnectDelay (nextRetry wsRetryAfterOpen) = reconnectDelay (nextRetry wsRetryInit) ∧
    reconnectDelay (nextRetry wsRetryAfterOpen) = 1000 := by
  refine ⟨?_, fun a => Nat.min_le_left _ _, rfl, by decide⟩
  intro r0 n
  have h8 : retryIter r0 (n + 1) ≤ 8 :=
    show min 8 (retryIter r0 n + 1) ≤ 8 from Nat.min_le_left _ _
  have hle : retryIter r0 (n + 1) ≤ retryIter r0 (n + 2) :=
    show retryIter r0 (n + 1) ≤ min 8 (retryIter r0 (n + 1) + 1) from
      le_min h8 (Nat.le_succ _)
  show min 15000 (500 * 2 ^ retryIter r0 (n + 1)) ≤
    min 15000 (500 * 2 ^ retryIter r0 (n + 2))
  exact min_le_min (le_refl _)
    (Nat.mul_le_mul_left _ (Nat.pow_le_pow_right (by norm_num) hle))

/-! ## Claim C10 -/

/-- C10: the dedup check scans the whole local history — a key collision
with any stored entry, not only the head, drops the incoming entry and
leaves the history untouched, while state and label still update from the
message. -/
theorem dedup_matches_anywhere (msg : TickMsg) (p : StatusPayload)
    (h : ∃ e ∈ p.history, entryKey e = entryKey msg.entry) :
    applyTick msg (some p) =
      ⟨msg.state.getD msg.entry.state, msg.label.getD p.label, p.history⟩ := by
  have hA : p.history.any (fun e => entryKey e == entryKey msg.entry) = true := by
    obtain ⟨e, he, hk⟩ := h
    exact List.any_eq_true.mpr ⟨e, he, by simp [hk]⟩
  apply statusPayload_ext
  · rfl
  · rfl
  · show (if p.history.any (fun e => entryKey e == entryKey msg.entry)
        then p.history else ((msg.entry :: p.history).take 250)) = p.history
    rw [if_pos hA]

/-- Incoming entry for the C10 witness. -/
def c10Entry : WsEntry := ⟨"2024-01-01T00:00:00Z", .OK, some ⟨true, some 20⟩⟩

/-- A newer head entry with a different dedup key. -/
def c10Head : WsEntry := ⟨"2024-01-01T00:00:10Z", .DEGRADED, none⟩

/-- Tick message replaying `c10Entry`. -/
def c10Msg : TickMsg := ⟨c10Entry, some .OK, none⟩

/-- Local view whose second (non-head) entry matches the incoming key. -/
def c10Prev : StatusPayload := ⟨.DEGRADED, "old", [c10Head, c10Entry]⟩

/-- C10 witness: the key match sits at position 1, not at the head, and
the history is left unchanged while state and label update. -/
theorem dedup_matches_anywhere_witness :
    applyTick c10Msg (some c10Prev) = ⟨.OK, "old", [c10Head, c10Entry]⟩ := by
  have h := dedup_matches_anywhere c10Msg c10Prev ⟨c10Entry, by simp [c10Prev], rfl⟩
  exact h

end VerdeScola
